import Mathlib

/-!
Verification of the provisioning core of `vsphere_create.py` (vSwitch / VM
creation against a vSphere cluster).  The Python source is shallowly embedded:

* `checkHardware` embeds `ServerConnection.check_hardware` (lines 176-203).
  Host capacities (`numCpuThreads`, `memorySize` rounded to MB) and datastore
  free space (rounded to GB) are modelled post-unit-conversion as integers,
  exactly the values the Python comparisons see.  The `free_disk` local is
  only ever assigned inside the `store.name == "NFSstore"` loop, so it is
  modelled as an `Option Int` that is `none` precisely when the variable
  would be unbound; using it then is a Python `NameError`.
* `mtu_validate` embeds the MTU branch of `get_args` (lines 83-89),
  where `if result.mtu:` is Python truthiness: `None` and `0` both take the
  `else` branch that defaults to 1500.
* `clone_resolve` embeds the template lookup of `clone_vm` (lines 322-328),
  including the source's shadowing of the `template` name parameter by
  `template = None` before the loop.
* `vmBranch` embeds the `__main__` vm action (lines 365-379), whose
  line-366 dispatch `if args['template']:` raises an uncaught `KeyError`
  for every VM-from-spec request (the spec path of `get_args` stores no
  `'template'` key), aborting the run before the else-branch.
* `vmSpecBranch` embeds that unreachable else-branch (lines 371-379)
  together with `create_vm` and `add_nic`, as a trace of remote mutating
  calls and printed messages; remote task results are oracle parameters.
  It documents the behavior the dispatch was meant to select.
* `switchBranch` embeds the `__main__` switch branch (lines 381-385) with
  `create_vswitch` / `create_portgroup`, which catch platform faults
  internally, so the per-host loop never exits early.

Exception messages are carried verbatim where they matter (the code's
misspelled "Not enouh ..." rejections); Python runtime error renderings
(NameError, AttributeError) are carried in an equivalent apostrophe-free
form, their exact text being irrelevant to the properties proved.
-/

/-- One datastore as `check_hardware` sees it: its name and
`round(summary.freeSpace/1024/1024/1024)` in GB. -/
structure Store where
  name : String
  freeSpaceGb : Int
deriving DecidableEq

/-- One host as `check_hardware` sees it: `hardware.cpuInfo.numCpuThreads`
and `round(hardware.memorySize/(1024*1024))` in MB. -/
structure Host where
  cpuThreads : Int
  memoryMb : Int
deriving DecidableEq

/-- The validated argument dictionary for a VM-from-spec request:
`args['name']`, `args['cpu']`, `args['ram']`, `args['disk']`,
`args['port_group']`. -/
structure VmSpecReq where
  name : String
  cpu : Int
  ram : Int
  disk : Int
  port_group : String
deriving DecidableEq

/-- A Python exception: an explicit `raise Exception(msg)`, the
interpreter's `NameError` for an unbound local variable, or its `KeyError`
for a missing dictionary key. -/
inductive PyError where
  | exc (msg : String)
  | nameError (var : String)
  | keyError (key : String)
deriving DecidableEq

/-- The `free_disk` binding of `check_hardware` lines 178-181: loop over the
datastores, assigning on every datastore named "NFSstore" (the last match
wins); `none` means the Python local was never assigned. -/
def lastNFS (stores : List Store) : Option Int :=
  stores.foldl (fun acc s => if s.name = "NFSstore" then some s.freeSpaceGb else acc) none

/-- The `saved_cpu` accumulator of `check_hardware` lines 182-192: starts at
0, keeps the greatest `cpuThreads` seen. -/
def savedCpu (hosts : List Host) : Int :=
  hosts.foldl (fun acc h => if h.cpuThreads > acc then h.cpuThreads else acc) 0

/-- The `saved_memory` accumulator of `check_hardware` lines 183-194: starts
at 0, keeps the greatest `memoryMb` seen. -/
def savedMemory (hosts : List Host) : Int :=
  hosts.foldl (fun acc h => if h.memoryMb > acc then h.memoryMb else acc) 0

/-- The CPU rejection message of `check_hardware` line 198 (spelling as in
the source). -/
def cpuRejectMsg (m : Int) : String := s!"Not enouh CPU threads to allocate. Maximum: {m}"

/-- The RAM rejection message of `check_hardware` line 200. -/
def ramRejectMsg (m : Int) : String := s!"Not enouh RAM to allocate. Maximum: {m}"

/-- The disk rejection message of `check_hardware` line 202. -/
def diskRejectMsg (m : Int) : String := s!"Not enouh Disk to allocate. Maximum: {m}"

/-- `ServerConnection.check_hardware` (lines 176-203): CPU check first, then
RAM, then disk; the disk comparison reads the `free_disk` local, which is a
`NameError` when no datastore was named "NFSstore".  Returns `True` when all
three checks pass. -/
def checkHardware (stores : List Store) (hosts : List Host) (req : VmSpecReq) : Except PyError Bool :=
  if req.cpu > savedCpu hosts then
    Except.error (PyError.exc (cpuRejectMsg (savedCpu hosts)))
  else if req.ram > savedMemory hosts then
    Except.error (PyError.exc (ramRejectMsg (savedMemory hosts)))
  else
    match lastNFS stores with
    | none => Except.error (PyError.nameError "free_disk")
    | some fd =>
        if req.disk > fd then Except.error (PyError.exc (diskRejectMsg fd))
        else Except.ok true

/-- Spec-side definition (from the words of spec section 4.1): the maximum
CPU-thread count observed over the hosts, seeded with the first host. -/
def maxObservedCpu_spec : List Host → Int
  | [] => 0
  | h :: t => t.foldl (fun a x => max a x.cpuThreads) h.cpuThreads

/-- Spec-side definition (from the words of spec section 4.1): the maximum
memory observed over the hosts, seeded with the first host. -/
def maxObservedMemory_spec : List Host → Int
  | [] => 0
  | h :: t => t.foldl (fun a x => max a x.memoryMb) h.memoryMb

/-- Spec-side definition (from the words of spec section 4.1): the chosen
placement host is the first host in input order attaining the maximum
observed CPU value. -/
def chosenHost_spec (hosts : List Host) : Option Host :=
  hosts.find? (fun h => decide (h.cpuThreads = maxObservedCpu_spec hosts))

/-- The MTU branch of `get_args` (lines 83-89).  `none` models an absent
`-m` option.  `if result.mtu:` is truthiness, so both `None` and `0` fall to
the `else` that stores the default 1500; a nonzero value is accepted when
`0 < mtu < 9001` and otherwise raises. -/
def mtu_validate (mtu : Option Int) : Except String Int :=
  match mtu with
  | none => Except.ok 1500
  | some m =>
    if m ≠ 0 then
      if 0 < m ∧ m < 9001 then Except.ok m
      else Except.error "MTU must be a value between 1 and 9000."
    else Except.ok 1500

/-- A virtual-machine object as enumerated by
`get_obj([vim.VirtualMachine])`: only its name matters here. -/
structure VmObj where
  name : String
deriving DecidableEq

/-- The runtime value of the local `template` in `clone_vm`: the name string
it is called with, `None` after line 323 overwrites it, or a VM object if
the loop ever assigned one. -/
inductive PyVal where
  | pystr (s : String)
  | pynone
  | pyvm (v : VmObj)
deriving DecidableEq

/-- Python `temp.name == template` (line 325): a string compares equal only
to an equal string; comparison with `None` or with a VM object is `False`
(identity fallback). -/
def pyEqName (n : String) : PyVal → Bool
  | PyVal.pystr s => n == s
  | PyVal.pynone => false
  | PyVal.pyvm _ => false

/-- The template lookup of `clone_vm` (lines 322-328).  The `templateName`
parameter is the requested template name, but line 323 (`template = None`)
overwrites it before the loop, so the loop compares every VM name against
`None`; `raise Exception("Template not found.")` fires when the final value
is falsy. -/
def clone_resolve (templateName : String) (vms : List VmObj) : Except String VmObj :=
  let tfinal := vms.foldl
    (fun t temp => if pyEqName temp.name t then PyVal.pyvm temp else t) PyVal.pynone
  match tfinal with
  | PyVal.pyvm v => Except.ok v
  | _ => Except.error "Template not found."

/-- A remote mutating call against the platform (each begins a vSphere
task): `CreateVM_Task`, `ReconfigVM_Task`, or `Clone`. -/
inductive RemoteCall where
  | createVmTask
  | reconfigVmTask
  | cloneTask
deriving DecidableEq

/-- One observable event of a provisioning run: a remote mutating call, or a
printed message (success reports and caught exception texts). -/
inductive Event where
  | remote (c : RemoteCall)
  | print (s : String)
deriving DecidableEq

/-- The remote mutating calls contained in a trace, in order. -/
def remoteCallsOf (t : List Event) : List RemoteCall :=
  t.filterMap fun e =>
    match e with
    | Event.remote c => some c
    | Event.print _ => none

/-- Rendering of a `PyError` by `print(e)` in the `except` handlers;
the `NameError` and `KeyError` texts are the interpreter's, in
apostrophe-free form. -/
def pyErrStr : PyError → String
  | PyError.exc m => m
  | PyError.nameError v => s!"NameError: name {v} is not defined"
  | PyError.keyError k => s!"KeyError: {k}"

/-- The environment of one VM-from-spec run: the cluster snapshot plus
oracles for the remote operations.  `networkFound` says whether
`get_obj([vim.Network], port_group)` resolves; `createVmOk` whether
`CreateVM_Task` + `WaitForTask` succeed (the created VM is then found by the
follow-up name lookup); `reconfigOk` whether `ReconfigVM_Task` +
`WaitForTask` succeed; the `Err` strings are the platform messages printed
on task failure. -/
structure VmEnv where
  stores : List Store
  hosts : List Host
  networkFound : Bool
  createVmOk : Bool
  createErr : String
  reconfigOk : Bool
  reconfigErr : String
deriving DecidableEq

/-- `ServerConnection.create_vm` (lines 257-283): prints, begins the create
task, and prints the outcome; all exceptions are caught inside, so the
caller always continues. -/
def create_vm_run (createVmOk : Bool) (createErr : String) (vmName : String) : List Event :=
  Event.print "Creating VM ..." :: Event.remote RemoteCall.createVmTask ::
    (if createVmOk then [Event.print (String.append "Successfully created VM: " vmName)]
     else [Event.print createErr])

/-- `ServerConnection.add_nic` (lines 285-316).  The NIC spec construction
reads `network.name` (line 298) outside the `try`, so a `None` network
raises out of the function (returned as `Except.error`).  With a network,
the attach is attempted: if the VM handle is `None` (creation failed), the
`vm.ReconfigVM_Task` attribute access raises inside the `try` before any
remote call and is caught and printed; with a real VM the reconfigure task
begins and its outcome is printed. -/
def add_nic_run (vm : Option Unit) (networkFound : Bool) (reconfigOk : Bool)
    (reconfigErr : String) : Except String (List Event) :=
  if networkFound then
    Except.ok (Event.print "Attaching VM to portgroup ..." ::
      (match vm with
       | none => [Event.print "AttributeError: NoneType object has no attribute ReconfigVM_Task"]
       | some _ =>
          Event.remote RemoteCall.reconfigVmTask ::
            (if reconfigOk then [Event.print "Successfully added VM to portgroup."]
             else [Event.print reconfigErr])))
  else Except.error "AttributeError: NoneType object has no attribute name"

/-- The else-branch of the `__main__` vm action (lines 371-379): run
`check_hardware`; on an exception print it (the outer `except`) and do
nothing else; on `True` look up the network, run `create_vm`, look up the
created VM by name, and run `add_nic`, printing any exception that escapes
`add_nic`.  Note that `__main__` never actually reaches this branch: the
line-366 dispatch `if args['template']:` raises a `KeyError` first on every
VM-from-spec request (see `vmBranch`), because the spec path of `get_args`
stores no `'template'` key.  The branch is embedded here because it is the
code the dispatch was meant to select and shows the rejection reporting it
would have performed. -/
def vmSpecBranch (env : VmEnv) (req : VmSpecReq) : List Event :=
  match checkHardware env.stores env.hosts req with
  | Except.error e => [Event.print (pyErrStr e)]
  | Except.ok _ =>
    let created := create_vm_run env.createVmOk env.createErr req.name
    let vm : Option Unit := if env.createVmOk then some () else none
    match add_nic_run vm env.networkFound env.reconfigOk env.reconfigErr with
    | Except.ok evs => created ++ evs
    | Except.error e => created ++ [Event.print e]

/-- The clone flow of `clone_vm` (lines 318-348) under the `__main__`
template branch (lines 366-370): template resolution first; its exception
propagates to `__main__` and is printed before any remote call; on success
the clone task begins and its outcome is printed (exceptions there are
caught inside `clone_vm`). -/
def templateBranch (templateName : String) (vms : List VmObj) (cloneOk : Bool)
    (cloneErr : String) : List Event :=
  match clone_resolve templateName vms with
  | Except.error e => [Event.print e]
  | Except.ok _ =>
      Event.print "Cloning VM..." :: Event.remote RemoteCall.cloneTask ::
        (if cloneOk then [Event.print "Cloning succesfull!"] else [Event.print cloneErr])

/-- The argument dictionary a vm-action run carries into `__main__`, in the
two shapes the vm path of `get_args` can return: the template path (lines
101-104) stores `name` and a `template` key (only when `result.template` is
truthy, so the stored string is never empty), while the spec path (lines
106-120) stores `name`, `cpu`, `ram`, `disk` and `port_group` — and no
`template` key. -/
inductive VmRequest where
  | fromTemplate (name template : String)
  | fromSpec (r : VmSpecReq)
deriving DecidableEq

/-- The `__main__` vm action (lines 365-379).  Line 366 evaluates
`if args['template']:` — a plain dict subscript outside any `try`.  On the
template path the key exists and is a non-empty (truthy) string, so the
clone flow runs.  On the spec path `get_args` stored no `'template'` key,
so the subscript raises an uncaught `KeyError` that aborts the whole run:
the else-branch (`vmSpecBranch`, lines 371-379) is never reached, no event
is emitted, and `conn.disconnect()` (line 388) never runs.  The result
pairs the emitted trace with the uncaught exception, if any. -/
def vmBranch (req : VmRequest) (vms : List VmObj) (cloneOk : Bool)
    (cloneErr : String) : List Event × Option PyError :=
  match req with
  | VmRequest.fromTemplate _ t => (templateBranch t vms cloneOk cloneErr, none)
  | VmRequest.fromSpec _ => ([], some (PyError.keyError "template"))

/-- The outcome of one remote step of the switch flow: the printed success
message, or the printed fault text of a caught platform error. -/
inductive StepOutcome where
  | ok (msg : String)
  | failed (msg : String)
deriving DecidableEq

/-- One host of the switch fan-out, with oracles for its two remote steps:
`none` means the call succeeds, `some m` that it raises a platform fault
whose handler prints `m` (the fault is caught inside `create_vswitch` /
`create_portgroup`, lines 218-225 and 248-255). -/
structure SwitchHost where
  hostName : String
  vswitchFault : Option String
  portgroupFault : Option String
deriving DecidableEq

/-- `ServerConnection.create_vswitch` (lines 205-225): builds the vSwitch
spec, attempts `AddVirtualSwitch`, and prints the result; faults are caught
inside the function. -/
def create_vswitch_run (vssName : String) (h : SwitchHost) : StepOutcome :=
  let hn := h.hostName
  match h.vswitchFault with
  | none => StepOutcome.ok s!"{hn} Successfully created switch: {vssName}"
  | some f => StepOutcome.failed f

/-- `ServerConnection.create_portgroup` (lines 227-255): builds the port
group spec with the fixed security policy, attempts `AddPortGroup`, and
prints the result; faults are caught inside the function. -/
def create_portgroup_run (pgName : String) (h : SwitchHost) : StepOutcome :=
  let hn := h.hostName
  match h.portgroupFault with
  | none => StepOutcome.ok s!"{hn} Successfully created portgroup: {pgName}"
  | some f => StepOutcome.failed f

/-- The two-step sequence one host receives in the switch flow. -/
def hostSwitchSequence (vssName pgName : String) (h : SwitchHost) : StepOutcome × StepOutcome :=
  (create_vswitch_run vssName h, create_portgroup_run pgName h)

/-- The `__main__` switch branch (lines 381-385): `for host in hosts:`
run `create_vswitch` then `create_portgroup` on that host.  Both callees
catch platform faults internally, so the loop body cannot raise and the
loop visits every host. -/
def switchBranch (vssName pgName : String) : List SwitchHost → List (StepOutcome × StepOutcome)
  | [] => []
  | h :: rest => hostSwitchSequence vssName pgName h :: switchBranch vssName pgName rest

/-- The source's `if x > acc then x else acc` update is `max acc x`. -/
lemma ite_gt_eq_max (a x : Int) : (if x > a then x else a) = max a x := by
  rcases le_or_lt x a with h | h
  · rw [if_neg (not_lt.mpr h), max_eq_left h]
  · rw [if_pos h, max_eq_right (le_of_lt h)]

/-- The saved-value loop equals a fold of `max` over the projected values. -/
lemma foldl_step_max (f : Host → Int) (l : List Host) :
    ∀ a : Int, l.foldl (fun acc h => if f h > acc then f h else acc) a
      = l.foldl (fun acc h => max acc (f h)) a := by
  induction l with
  | nil => intro a; rfl
  | cons x l ih =>
    intro a
    simp only [List.foldl_cons]
    rw [ite_gt_eq_max a (f x)]
    exact ih (max a (f x))

/-- A `max` fold only grows its accumulator. -/
lemma le_foldl_hmax (f : Host → Int) (l : List Host) :
    ∀ a : Int, a ≤ l.foldl (fun acc h => max acc (f h)) a := by
  induction l with
  | nil => intro a; exact le_refl a
  | cons x l ih =>
    intro a
    simp only [List.foldl_cons]
    exact le_trans (le_max_left a (f x)) (ih (max a (f x)))

/-- A `max` seeded with `max a b` factors the `a` out of the fold. -/
lemma foldl_hmax_shift (f : Host → Int) (l : List Host) :
    ∀ a b : Int, l.foldl (fun acc h => max acc (f h)) (max a b)
      = max a (l.foldl (fun acc h => max acc (f h)) b) := by
  induction l with
  | nil => intro a b; rfl
  | cons x l ih =>
    intro a b
    simp only [List.foldl_cons]
    rw [max_assoc a b (f x)]
    exact ih a (max b (f x))

/-- On a non-empty host list with non-negative thread counts, the source's
0-seeded `saved_cpu` loop computes exactly the maximum observed CPU value. -/
lemma savedCpu_eq_max (hosts : List Host) (hne : hosts ≠ [])
    (hnn : ∀ h ∈ hosts, 0 ≤ h.cpuThreads) :
    savedCpu hosts = maxObservedCpu_spec hosts := by
  cases hosts with
  | nil => exact absurd rfl hne
  | cons h t =>
    unfold savedCpu maxObservedCpu_spec
    rw [foldl_step_max (fun x => x.cpuThreads) (h :: t) 0]
    simp only [List.foldl_cons]
    have h0 : (0 : Int) ≤ h.cpuThreads := hnn h (List.mem_cons_self h t)
    calc t.foldl (fun acc x => max acc x.cpuThreads) (max 0 h.cpuThreads)
        = max 0 (t.foldl (fun acc x => max acc x.cpuThreads) h.cpuThreads) :=
          foldl_hmax_shift (fun x => x.cpuThreads) t 0 h.cpuThreads
      _ = t.foldl (fun acc x => max acc x.cpuThreads) h.cpuThreads :=
          max_eq_right (le_trans h0 (le_foldl_hmax (fun x => x.cpuThreads) t h.cpuThreads))

/-- On a non-empty host list with non-negative memory sizes, the source's
0-seeded `saved_memory` loop computes exactly the maximum observed memory. -/
lemma savedMemory_eq_max (hosts : List Host) (hne : hosts ≠ [])
    (hnn : ∀ h ∈ hosts, 0 ≤ h.memoryMb) :
    savedMemory hosts = maxObservedMemory_spec hosts := by
  cases hosts with
  | nil => exact absurd rfl hne
  | cons h t =>
    unfold savedMemory maxObservedMemory_spec
    rw [foldl_step_max (fun x => x.memoryMb) (h :: t) 0]
    simp only [List.foldl_cons]
    have h0 : (0 : Int) ≤ h.memoryMb := hnn h (List.mem_cons_self h t)
    calc t.foldl (fun acc x => max acc x.memoryMb) (max 0 h.memoryMb)
        = max 0 (t.foldl (fun acc x => max acc x.memoryMb) h.memoryMb) :=
          foldl_hmax_shift (fun x => x.memoryMb) t 0 h.memoryMb
      _ = t.foldl (fun acc x => max acc x.memoryMb) h.memoryMb :=
          max_eq_right (le_trans h0 (le_foldl_hmax (fun x => x.memoryMb) t h.memoryMb))

/-- Once the `free_disk` loop has seen the unique "NFSstore" datastore, the
remaining iterations leave the binding unchanged. -/
lemma lastNFS_stable (s : Store) :
    ∀ l : List Store, (∀ u ∈ l, u.name = "NFSstore" → u = s) →
      l.foldl (fun acc u => if u.name = "NFSstore" then some u.freeSpaceGb else acc)
        (some s.freeSpaceGb) = some s.freeSpaceGb := by
  intro l
  induction l with
  | nil => intro _; rfl
  | cons u l ih =>
    intro h
    simp only [List.foldl_cons]
    by_cases hu : u.name = "NFSstore"
    · rw [if_pos hu, h u (List.mem_cons_self u l) hu]
      exact ih (fun v hv => h v (List.mem_cons_of_mem u hv))
    · rw [if_neg hu]
      exact ih (fun v hv => h v (List.mem_cons_of_mem u hv))

/-- When the datastore list holds a unique store named "NFSstore", the
`free_disk` binding is that store's free space. -/
lemma lastNFS_unique :
    ∀ (stores : List Store) (s : Store), s ∈ stores → s.name = "NFSstore" →
      (∀ u ∈ stores, u.name = "NFSstore" → u = s) →
      lastNFS stores = some s.freeSpaceGb := by
  intro stores
  induction stores with
  | nil => intro s hmem; cases hmem
  | cons t ts ih =>
    intro s hmem hname huniq
    unfold lastNFS
    simp only [List.foldl_cons]
    by_cases ht : t.name = "NFSstore"
    · rw [if_pos ht, huniq t (List.mem_cons_self t ts) ht]
      exact lastNFS_stable s ts (fun u hu => huniq u (List.mem_cons_of_mem t hu))
    · rw [if_neg ht]
      have hsts : s ∈ ts := by
        cases hmem with
        | head => exact absurd hname ht
        | tail _ h => exact h
      exact ih s hsts hname (fun u hu => huniq u (List.mem_cons_of_mem t hu))

/-- When no datastore is named "NFSstore", the `free_disk` local is never
assigned. -/
lemma lastNFS_none :
    ∀ stores : List Store, (∀ u ∈ stores, u.name ≠ "NFSstore") →
      lastNFS stores = none := by
  intro stores
  induction stores with
  | nil => intro _; rfl
  | cons t ts ih =>
    intro h
    unfold lastNFS
    simp only [List.foldl_cons]
    rw [if_neg (h t (List.mem_cons_self t ts))]
    exact ih (fun u hu => h u (List.mem_cons_of_mem t hu))

/-- `check_hardware` returns `True` exactly when all three comparisons pass,
given that the `free_disk` binding resolved to `fd`. -/
lemma checkHardware_ok_iff (stores : List Store) (hosts : List Host) (req : VmSpecReq)
    (fd : Int) (hfd : lastNFS stores = some fd) :
    checkHardware stores hosts req = Except.ok true ↔
      req.cpu ≤ savedCpu hosts ∧ req.ram ≤ savedMemory hosts ∧ req.disk ≤ fd := by
  unfold checkHardware
  rw [hfd]
  dsimp only
  by_cases h1 : req.cpu > savedCpu hosts
  · rw [if_pos h1]
    constructor
    · intro hEq; exact absurd hEq (by simp)
    · rintro ⟨hc, -, -⟩; exact absurd h1 (not_lt.mpr hc)
  · rw [if_neg h1]
    by_cases h2 : req.ram > savedMemory hosts
    · rw [if_pos h2]
      constructor
      · intro hEq; exact absurd hEq (by simp)
      · rintro ⟨-, hr, -⟩; exact absurd h2 (not_lt.mpr hr)
    · rw [if_neg h2]
      by_cases h3 : req.disk > fd
      · rw [if_pos h3]
        constructor
        · intro hEq; exact absurd hEq (by simp)
        · rintro ⟨-, -, hd⟩; exact absurd h3 (not_lt.mpr hd)
      · rw [if_neg h3]
        exact ⟨fun _ => ⟨not_lt.mp h1, not_lt.mp h2, not_lt.mp h3⟩, fun _ => rfl⟩

/-- When some comparison fails, `check_hardware` raises one of its explicit
rejection exceptions, given that the `free_disk` binding resolved to `fd`. -/
lemma checkHardware_rejects (stores : List Store) (hosts : List Host) (req : VmSpecReq)
    (fd : Int) (hfd : lastNFS stores = some fd)
    (hnot : ¬(req.cpu ≤ savedCpu hosts ∧ req.ram ≤ savedMemory hosts ∧ req.disk ≤ fd)) :
    ∃ m, checkHardware stores hosts req = Except.error (PyError.exc m) := by
  unfold checkHardware
  rw [hfd]
  dsimp only
  by_cases h1 : req.cpu > savedCpu hosts
  · exact ⟨cpuRejectMsg (savedCpu hosts), by rw [if_pos h1]⟩
  · rw [if_neg h1]
    by_cases h2 : req.ram > savedMemory hosts
    · exact ⟨ramRejectMsg (savedMemory hosts), by rw [if_pos h2]⟩
    · rw [if_neg h2]
      by_cases h3 : req.disk > fd
      · exact ⟨diskRejectMsg fd, by rw [if_pos h3]⟩
      · exact absurd ⟨not_lt.mp h1, not_lt.mp h2, not_lt.mp h3⟩ hnot

/-- Claim C1: for every VM-from-spec request and non-empty host list (with
physically meaningful non-negative capacities), and a uniquely named
"NFSstore" datastore, `check_hardware` returns `True` exactly when the
requested cpu is at most the maximum observed CPU threads, the requested
ram at most the maximum observed memory, and the requested disk at most the
free space of the named pool; in every other case it raises a rejection
exception. -/
theorem check_hardware_decision (stores : List Store) (hosts : List Host) (req : VmSpecReq)
    (s : Store) (hne : hosts ≠ [])
    (hnn : ∀ h ∈ hosts, 0 ≤ h.cpuThreads ∧ 0 ≤ h.memoryMb)
    (hmem : s ∈ stores) (hname : s.name = "NFSstore")
    (huniq : ∀ u ∈ stores, u.name = "NFSstore" → u = s) :
    (checkHardware stores hosts req = Except.ok true ↔
      req.cpu ≤ maxObservedCpu_spec hosts ∧ req.ram ≤ maxObservedMemory_spec hosts ∧
        req.disk ≤ s.freeSpaceGb) ∧
    (¬(req.cpu ≤ maxObservedCpu_spec hosts ∧ req.ram ≤ maxObservedMemory_spec hosts ∧
        req.disk ≤ s.freeSpaceGb) →
      ∃ m, checkHardware stores hosts req = Except.error (PyError.exc m)) := by
  have hc := savedCpu_eq_max hosts hne (fun h hm => (hnn h hm).1)
  have hm2 := savedMemory_eq_max hosts hne (fun h hm => (hnn h hm).2)
  have hfd := lastNFS_unique stores s hmem hname huniq
  constructor
  · rw [checkHardware_ok_iff stores hosts req s.freeSpaceGb hfd, hc, hm2]
  · intro hnot
    apply checkHardware_rejects stores hosts req s.freeSpaceGb hfd
    rw [hc, hm2]
    exact hnot

/-- Witness for C1 at the spec scenario: three hosts, 500 GB free, request
cpu=20 ram=8000 disk=100 fits. -/
theorem check_hardware_decision_witness :
    checkHardware [⟨"NFSstore", 500⟩] [⟨8, 4096⟩, ⟨16, 8192⟩, ⟨32, 16384⟩]
      ⟨"vm1", 20, 8000, 100, "pg"⟩ = Except.ok true := by
  have h := check_hardware_decision [⟨"NFSstore", 500⟩] [⟨8, 4096⟩, ⟨16, 8192⟩, ⟨32, 16384⟩]
    ⟨"vm1", 20, 8000, 100, "pg"⟩ ⟨"NFSstore", 500⟩ (by decide) (by decide) (by decide)
    (by decide) (by decide)
  exact h.1.mpr (by decide)

/-- Claim C7: the rejection names exactly one limiting resource in the fixed
order CPU, then RAM, then disk: a CPU overrun is reported unconditionally,
a RAM overrun only when CPU fits, a disk overrun only when CPU and RAM fit. -/
theorem check_hardware_first_violation (stores : List Store) (hosts : List Host)
    (req : VmSpecReq) (fd : Int) (hfd : lastNFS stores = some fd) :
    (req.cpu > savedCpu hosts →
      checkHardware stores hosts req
        = Except.error (PyError.exc (cpuRejectMsg (savedCpu hosts)))) ∧
    (req.cpu ≤ savedCpu hosts → req.ram > savedMemory hosts →
      checkHardware stores hosts req
        = Except.error (PyError.exc (ramRejectMsg (savedMemory hosts)))) ∧
    (req.cpu ≤ savedCpu hosts → req.ram ≤ savedMemory hosts → req.disk > fd →
      checkHardware stores hosts req = Except.error (PyError.exc (diskRejectMsg fd))) := by
  refine ⟨?_, ?_, ?_⟩
  · intro h1
    unfold checkHardware
    rw [if_pos h1]
  · intro h1 h2
    unfold checkHardware
    rw [if_neg (not_lt.mpr h1), if_pos h2]
  · intro h1 h2 h3
    unfold checkHardware
    rw [if_neg (not_lt.mpr h1), if_neg (not_lt.mpr h2), hfd]
    dsimp only
    rw [if_pos h3]

/-- Witness for C7 at the spec ordering scenario: cpu=100 against maximum
10, ram=1 against 9999, disk=1 against 9999 is rejected for CPU. -/
theorem check_hardware_first_violation_witness :
    checkHardware [⟨"NFSstore", 9999⟩] [⟨10, 9999⟩] ⟨"vm1", 100, 1, 1, "pg"⟩
      = Except.error (PyError.exc (cpuRejectMsg 10)) := by
  have h := check_hardware_first_violation [⟨"NFSstore", 9999⟩] [⟨10, 9999⟩]
    ⟨"vm1", 100, 1, 1, "pg"⟩ 9999 rfl
  exact h.1 (by decide)

/-- Counterexample to claim C9: with an empty host list (and a perfectly
good datastore), `check_hardware` does not raise any input error; it
proceeds to the capacity decision with both maxima still 0 and rejects a
cpu=4 request with the ordinary CPU capacity message naming maximum 0. -/
theorem check_hardware_empty_hosts_cex :
    checkHardware [⟨"NFSstore", 500⟩] [] ⟨"vm1", 4, 1024, 10, "pg"⟩
      = Except.error (PyError.exc "Not enouh CPU threads to allocate. Maximum: 0") := rfl

/-- Claim C9 as amended: on an empty candidate host list `check_hardware`
raises no input error; the maxima stay at their 0 seeds, so any request
asking for at least one CPU thread is rejected with the CPU capacity
message reporting maximum 0. -/
theorem check_hardware_empty_hosts (stores : List Store) (req : VmSpecReq)
    (hcpu : 1 ≤ req.cpu) :
    checkHardware stores [] req = Except.error (PyError.exc (cpuRejectMsg 0)) := by
  have h1 : req.cpu > savedCpu [] := by
    show (0 : Int) < req.cpu
    omega
  unfold checkHardware
  rw [if_pos h1]
  rfl

/-- Witness for amended C9. -/
theorem check_hardware_empty_hosts_witness :
    checkHardware [⟨"NFSstore", 500⟩] [] ⟨"vm1", 1, 1, 1, "pg"⟩
      = Except.error (PyError.exc (cpuRejectMsg 0)) :=
  check_hardware_empty_hosts [⟨"NFSstore", 500⟩] ⟨"vm1", 1, 1, 1, "pg"⟩ (by decide)

/-- Claim C10: when the CPU and RAM checks pass and no datastore is named
"NFSstore", the disk comparison reads the never-assigned `free_disk` local,
so `check_hardware` aborts with a `NameError` instead of a capacity
decision or a named rejection. -/
theorem check_hardware_unbound_free_disk (stores : List Store) (hosts : List Host)
    (req : VmSpecReq) (hno : ∀ u ∈ stores, u.name ≠ "NFSstore")
    (hcpu : req.cpu ≤ savedCpu hosts) (hram : req.ram ≤ savedMemory hosts) :
    checkHardware stores hosts req = Except.error (PyError.nameError "free_disk") := by
  unfold checkHardware
  rw [if_neg (not_lt.mpr hcpu), if_neg (not_lt.mpr hram), lastNFS_none stores hno]

/-- Witness for C10: one capable host, a datastore named "datastore1" only. -/
theorem check_hardware_unbound_free_disk_witness :
    checkHardware [⟨"datastore1", 500⟩] [⟨32, 16384⟩] ⟨"vm1", 2, 1024, 10, "pg"⟩
      = Except.error (PyError.nameError "free_disk") :=
  check_hardware_unbound_free_disk [⟨"datastore1", 500⟩] [⟨32, 16384⟩]
    ⟨"vm1", 2, 1024, 10, "pg"⟩ (by decide) (by decide) (by decide)

/-- Counterexample to claim C8: the evaluation produces no chosen placement
host.  Two clusters whose maximum-CPU hosts differ (a 32-thread host versus
a 64-thread host) give the identical evaluation result `ok True`, so the
result of `check_hardware` cannot carry the host that achieved the maximum
CPU value. -/
theorem check_hardware_no_chosen_host_cex :
    checkHardware [⟨"NFSstore", 500⟩] [⟨8, 4096⟩, ⟨16, 8192⟩, ⟨32, 16384⟩]
        ⟨"vm1", 20, 8000, 100, "pg"⟩ = Except.ok true ∧
    checkHardware [⟨"NFSstore", 500⟩] [⟨64, 16384⟩] ⟨"vm1", 20, 8000, 100, "pg"⟩
        = Except.ok true ∧
    chosenHost_spec [⟨8, 4096⟩, ⟨16, 8192⟩, ⟨32, 16384⟩] ≠ chosenHost_spec [⟨64, 16384⟩] :=
  ⟨rfl, rfl, by decide⟩

/-- Claim C8 as amended: on a fitting request the capacity evaluation
returns only the boolean decision `True` — the spec scenario (hosts with 8,
16 and 32 CPU threads, memory 4096, 8192, 16384 MB, 500 GB free, request
cpu=20 ram=8000 disk=100) fits — and no placement host is selected: every
successful result of `check_hardware` is the bare `True`. -/
theorem check_hardware_fit_boolean :
    checkHardware [⟨"NFSstore", 500⟩] [⟨8, 4096⟩, ⟨16, 8192⟩, ⟨32, 16384⟩]
        ⟨"vm1", 20, 8000, 100, "pg"⟩ = Except.ok true ∧
    ∀ (stores : List Store) (hosts : List Host) (req : VmSpecReq) (b : Bool),
      checkHardware stores hosts req = Except.ok b → b = true := by
  constructor
  · rfl
  · intro stores hosts req b h
    unfold checkHardware at h
    by_cases h1 : req.cpu > savedCpu hosts
    · rw [if_pos h1] at h
      exact absurd h (by simp)
    · rw [if_neg h1] at h
      by_cases h2 : req.ram > savedMemory hosts
      · rw [if_pos h2] at h
        exact absurd h (by simp)
      · rw [if_neg h2] at h
        cases hfd : lastNFS stores with
        | none =>
          rw [hfd] at h
          dsimp only at h
          exact absurd h (by simp)
        | some fd =>
          rw [hfd] at h
          dsimp only at h
          by_cases h3 : req.disk > fd
          · rw [if_pos h3] at h
            exact absurd h (by simp)
          · rw [if_neg h3] at h
            injection h with h
            exact h.symm

/-- Witness for amended C8. -/
theorem check_hardware_fit_boolean_witness :
    checkHardware [⟨"NFSstore", 500⟩] [⟨32, 16384⟩] ⟨"vm1", 1, 1, 1, "pg"⟩ = Except.ok true ∧
    true = true :=
  ⟨rfl, check_hardware_fit_boolean.2 [⟨"NFSstore", 500⟩] [⟨32, 16384⟩]
    ⟨"vm1", 1, 1, 1, "pg"⟩ true rfl⟩

/-- Had the line-366 dispatch reached the else-branch, an overrunning
request would have printed the single rejection message raised by
`check_hardware` with zero remote mutating calls.  This is the behavior of
the unreachable lines 371-379 and documents what the dispatch was meant to
select; the program itself aborts earlier (see `vmBranch`). -/
lemma vm_reject_no_mutation (env : VmEnv) (req : VmSpecReq) (fd : Int)
    (hfd : lastNFS env.stores = some fd)
    (hex : req.cpu > savedCpu env.hosts ∨ req.ram > savedMemory env.hosts ∨ req.disk > fd) :
    ∃ e, checkHardware env.stores env.hosts req = Except.error e ∧
      vmSpecBranch env req = [Event.print (pyErrStr e)] ∧
      remoteCallsOf (vmSpecBranch env req) = [] := by
  have hrej : ∃ m, checkHardware env.stores env.hosts req = Except.error (PyError.exc m) := by
    apply checkHardware_rejects env.stores env.hosts req fd hfd
    rintro ⟨hc, hr, hd⟩
    rcases hex with h | h | h
    · exact absurd h (not_lt.mpr hc)
    · exact absurd h (not_lt.mpr hr)
    · exact absurd h (not_lt.mpr hd)
  obtain ⟨m, hm⟩ := hrej
  have hb : vmSpecBranch env req = [Event.print (pyErrStr (PyError.exc m))] := by
    unfold vmSpecBranch
    rw [hm]
  exact ⟨PyError.exc m, hm, hb, by rw [hb]; rfl⟩

/-- Claim C2 (code bug): the dispatch at line 366 reads `args['template']`
on a dictionary that, on the spec path, has no such key.  At the failing
input — a cpu=100 request against a lone 4-thread host, exactly the
capacity-rejected situation the claim is about, as the second conjunct
shows — the run aborts with an uncaught `KeyError` and an empty trace:
zero remote mutating calls, but also no `Failure` outcome and no rejection
reason, because `check_hardware` is never reached from `__main__`. -/
theorem vm_spec_keyError_no_mutation :
    vmBranch (VmRequest.fromSpec ⟨"vm1", 100, 1, 1, "pg"⟩) [] true "e"
      = ([], some (PyError.keyError "template")) ∧
    checkHardware [⟨"NFSstore", 500⟩] [⟨4, 1024⟩] ⟨"vm1", 100, 1, 1, "pg"⟩
      = Except.error (PyError.exc (cpuRejectMsg 4)) :=
  ⟨rfl, rfl⟩

/-- Counterexample to claim C3: a request that fits (first conjunct) for
which the vm action nevertheless emits no event at all and aborts with the
uncaught line-366 `KeyError` (second conjunct).  The create-vm step is
never attempted for any fitting request, so no create-vm step ever
precedes an attach-nic step, contrary to the claimed step sequence. -/
theorem vm_fitting_no_steps_cex :
    checkHardware [⟨"NFSstore", 500⟩] [⟨32, 16384⟩] ⟨"vm1", 2, 1024, 10, "pg"⟩
      = Except.ok true ∧
    vmBranch (VmRequest.fromSpec ⟨"vm1", 2, 1024, 10, "pg"⟩) [] true "e"
      = ([], some (PyError.keyError "template")) :=
  ⟨rfl, rfl⟩

/-- Claim C3 as amended: every VM-from-spec request — fitting or not —
aborts the run with the uncaught `KeyError` of the line-366
`args['template']` subscript before any provisioning step: the event trace
is empty, so the create-vm step and the attach-nic step are both never
attempted (no step ordering arises, and a create-vm failure can never
occur). -/
theorem vm_spec_branch_always_aborts (req : VmSpecReq) (vms : List VmObj)
    (cloneOk : Bool) (cloneErr : String) :
    vmBranch (VmRequest.fromSpec req) vms cloneOk cloneErr
      = ([], some (PyError.keyError "template")) ∧
    remoteCallsOf (vmBranch (VmRequest.fromSpec req) vms cloneOk cloneErr).1 = [] :=
  ⟨rfl, rfl⟩

/-- Claim C4: the switch flow visits every enumerated host, emitting exactly
one outcome pair (switch step, port-group step) per host, and each host's
outcome is a function of that host alone — a caught fault on one host
neither aborts nor changes the sequences of the others. -/
theorem switch_one_outcome_per_host (vssName pgName : String) (hosts : List SwitchHost) :
    switchBranch vssName pgName hosts = hosts.map (hostSwitchSequence vssName pgName) ∧
    (switchBranch vssName pgName hosts).length = hosts.length := by
  have hmap : ∀ l : List SwitchHost,
      switchBranch vssName pgName l = l.map (hostSwitchSequence vssName pgName) := by
    intro l
    induction l with
    | nil => rfl
    | cons h t ih => simp [switchBranch, ih]
  refine ⟨hmap hosts, ?_⟩
  rw [hmap hosts]
  simp

/-- The shadowed `template` parameter makes the lookup of `clone_vm` fail
for every template name and every VM inventory. -/
lemma clone_resolve_always_fails (templateName : String) (vms : List VmObj) :
    clone_resolve templateName vms = Except.error "Template not found." := by
  have hfold : ∀ l : List VmObj,
      l.foldl (fun t temp => if pyEqName temp.name t then PyVal.pyvm temp else t) PyVal.pynone
        = PyVal.pynone := by
    intro l
    induction l with
    | nil => rfl
    | cons v t ih =>
      simp only [List.foldl_cons, pyEqName]
      exact ih
  unfold clone_resolve
  rw [hfold vms]

/-- Claim C5 (code bug): `clone_vm` overwrites its template-name parameter
with `None` before the lookup loop, so even when a virtual machine named
"ubuntu-template" exists and that exact name is requested, the lookup never
matches, "Template not found." is raised, and no clone task ever begins —
contradicting the function's own documented purpose of deploying from an
existing template. -/
theorem clone_template_shadow_bug :
    clone_resolve "ubuntu-template" [⟨"ubuntu-template"⟩] = Except.error "Template not found." ∧
    templateBranch "ubuntu-template" [⟨"ubuntu-template"⟩] true "e"
      = [Event.print "Template not found."] ∧
    remoteCallsOf (templateBranch "ubuntu-template" [⟨"ubuntu-template"⟩] true "e") = [] :=
  ⟨rfl, rfl, rfl⟩

/-- Counterexample to claim C6: mtu=0 is not rejected; Python truthiness
sends it to the default branch, which silently stores 1500. -/
theorem mtu_zero_accepted_cex : mtu_validate (some 0) = Except.ok 1500 := rfl

/-- Claim C6 as amended: an absent mtu defaults to 1500 and mtu=0 is
treated like an absent mtu (defaulting to 1500, not rejected); every other
integer is accepted exactly when it lies strictly between 0 and 9001, so
mtu=1 and mtu=9000 are accepted and mtu=9001 is rejected. -/
theorem mtu_validate_characterization :
    mtu_validate none = Except.ok 1500 ∧
    mtu_validate (some 0) = Except.ok 1500 ∧
    ∀ m : Int, m ≠ 0 →
      ((0 < m ∧ m < 9001) → mtu_validate (some m) = Except.ok m) ∧
      (¬(0 < m ∧ m < 9001) →
        mtu_validate (some m) = Except.error "MTU must be a value between 1 and 9000.") := by
  refine ⟨rfl, rfl, ?_⟩
  intro m hm
  constructor
  · intro hr
    simp [mtu_validate, hm, hr.1, hr.2]
  · intro hr
    simp [mtu_validate, hm, hr]

/-- Witness for amended C6 at the boundary values 9001, 1 and 9000. -/
theorem mtu_validate_characterization_witness :
    mtu_validate (some 9001) = Except.error "MTU must be a value between 1 and 9000." ∧
    mtu_validate (some 1) = Except.ok 1 ∧
    mtu_validate (some 9000) = Except.ok 9000 :=
  ⟨(mtu_validate_characterization.2.2 9001 (by decide)).2 (by decide),
   (mtu_validate_characterization.2.2 1 (by decide)).1 (by decide),
   (mtu_validate_characterization.2.2 9000 (by decide)).1 (by decide)⟩
